import Mathlib

/-!
Verification of the metadata inference engine of the research-paper
organizer (`organize_papers.py`).

Strings are modelled as `List Char`; each Python regex that the source
relies on is translated into an explicit character-list matcher with the
same leftmost-match / greediness behaviour on the ASCII fragment the
program manipulates.  Fallible steps return `Option`; the stateful
`PaperMetadata` accumulator becomes a `Candidate` record threaded through
the pipeline stages.
-/

namespace OrganizePapers

/-- Whitespace characters of Python's `\s` class (ASCII fragment). -/
def pyIsSpace (c : Char) : Bool :=
  c = ' ' || c = '\t' || c = '\n' || c = '\r' || c = '\x0b' || c = '\x0c'

/-- Decimal digit, Python `\d` (ASCII fragment). -/
def isDigitChar (c : Char) : Bool := '0' ≤ c && c ≤ '9'

/-- Uppercase ASCII letter, `[A-Z]` and Python `str.isupper` on ASCII. -/
def isUpperChar (c : Char) : Bool := 'A' ≤ c && c ≤ 'Z'

/-- Lowercase ASCII letter, `[a-z]`. -/
def isLowerChar (c : Char) : Bool := 'a' ≤ c && c ≤ 'z'

/-- ASCII letter, `[A-Za-z]` and Python `str.isalpha` on ASCII. -/
def isAlphaChar (c : Char) : Bool := isUpperChar c || isLowerChar c

/-- Word character, Python `\w` (ASCII fragment). -/
def isWordChar (c : Char) : Bool := isAlphaChar c || isDigitChar c || c = '_'

/-- ASCII lowercasing, used for Python's `re.IGNORECASE` and `str.lower`. -/
def lowerChar (c : Char) : Char :=
  if isUpperChar c then Char.ofNat (c.toNat + 32) else c

/-- Case-insensitive character equality. -/
def lcEq (a b : Char) : Bool := lowerChar a = lowerChar b

/-- Lowercase an entire string, Python `str.lower` (ASCII fragment). -/
def lowerStr (cs : List Char) : List Char := cs.map lowerChar

/-- Python `str.strip()`: drop leading and trailing whitespace. -/
def pyStrip (cs : List Char) : List Char :=
  ((cs.dropWhile pyIsSpace).reverse.dropWhile pyIsSpace).reverse

/-- Case-sensitive literal-prefix matcher: the remainder after `pat`, if `cs` starts with it. -/
def dropLit : List Char → List Char → Option (List Char)
  | [], cs => some cs
  | _ :: _, [] => none
  | p :: ps, c :: cs => if c = p then dropLit ps cs else none

/-- Case-insensitive literal-prefix matcher. -/
def dropLitCI : List Char → List Char → Option (List Char)
  | [], cs => some cs
  | _ :: _, [] => none
  | p :: ps, c :: cs => if lcEq c p then dropLitCI ps cs else none

/-- Case-sensitive substring test. -/
def containsSub (pat : List Char) : List Char → Bool
  | [] => (dropLit pat []).isSome
  | c :: cs => (dropLit pat (c :: cs)).isSome || containsSub pat cs

/-- Case-insensitive substring test. -/
def containsSubCI (pat : List Char) : List Char → Bool
  | [] => (dropLitCI pat []).isSome
  | c :: cs => (dropLitCI pat (c :: cs)).isSome || containsSubCI pat cs

/-- Numeric value of a digit string, Python `int` on the captured year digits. -/
def natOfDigits (cs : List Char) : Nat :=
  cs.foldl (fun acc c => acc * 10 + (c.toNat - '0'.toNat)) 0

/-- Decimal representation of a natural number, Python `str` on a year. -/
def natToStr (n : Nat) : List Char := Nat.toDigits 10 n

/-- Split a string at every character satisfying `p` (single-character
separators, like `re.split` with a character class). -/
def splitOnPred (p : Char → Bool) : List Char → List (List Char)
  | [] => [[]]
  | c :: cs =>
    if p c then [] :: splitOnPred p cs
    else
      match splitOnPred p cs with
      | [] => [[c]]
      | h :: t => (c :: h) :: t

/-- Python `str.split(',')`. -/
def splitComma (cs : List Char) : List (List Char) := splitOnPred (· = ',') cs

/-- Python `'\n'.split` used to cut a page into lines. -/
def splitNewline (cs : List Char) : List (List Char) := splitOnPred (· = '\n') cs

/-- Join with `", "`, Python `', '.join`. -/
def joinCommaSpace (xs : List (List Char)) : List Char :=
  List.intercalate [',', ' '] xs

/-- Join with a single space, Python `' '.join`. -/
def joinSpace (xs : List (List Char)) : List Char :=
  List.intercalate [' '] xs

/-- Page text to the trimmed non-empty line list the source builds with
`[line.strip() for line in text.split('\n') if line.strip()]`. -/
def toLines (page : List Char) : List (List Char) :=
  ((splitNewline page).map pyStrip).filter (fun l => !l.isEmpty)

/-- Collapse every whitespace run to a single blank, `re.sub(r'\s+', ' ', s)`.
The Boolean argument records whether the previous character was inside a
whitespace run already emitted. -/
def normalizeWsAux : Bool → List Char → List Char
  | _, [] => []
  | inRun, c :: cs =>
    if pyIsSpace c then
      if inRun then normalizeWsAux true cs else ' ' :: normalizeWsAux true cs
    else c :: normalizeWsAux false cs

/-- Collapse whitespace runs, `re.sub(r'\s+', ' ', s)`. -/
def normalizeWs (cs : List Char) : List Char := normalizeWsAux false cs

/-! ## DOI extraction (`_extract_doi_from_text`, organize_papers.py 159-184) -/

/-- Match the DOI body `10\.\d+/[^\s\)]+` at the head of the input,
returning the captured characters. -/
def matchDoiBody (cs : List Char) : Option (List Char) :=
  match dropLit ['1', '0', '.'] cs with
  | none => none
  | some r1 =>
    let ds := r1.takeWhile isDigitChar
    if ds.isEmpty then none
    else
      match r1.dropWhile isDigitChar with
      | '/' :: r2 =>
        let body := r2.takeWhile (fun c => !pyIsSpace c && c ≠ ')')
        if body.isEmpty then none
        else some ('1' :: '0' :: '.' :: ds ++ '/' :: body)
      | _ => none

/-- Leftmost match of `doi\.org/(10\.\d+/[^\s\)]+)` (case-insensitive). -/
def findDoiOrg : List Char → Option (List Char)
  | [] => none
  | c :: cs =>
    match (dropLitCI ('d' :: 'o' :: 'i' :: '.' :: 'o' :: 'r' :: 'g' :: '/' :: []) (c :: cs)).bind matchDoiBody with
    | some d => some d
    | none => findDoiOrg cs

/-- Match `DOI[:\s]+(10\.\d+/[^\s\)]+)` at the head of the input (case-insensitive). -/
def matchDoiLabelAt (cs : List Char) : Option (List Char) :=
  match dropLitCI ('d' :: 'o' :: 'i' :: []) cs with
  | none => none
  | some r1 =>
    let sep := r1.takeWhile (fun c => c = ':' || pyIsSpace c)
    if sep.isEmpty then none
    else matchDoiBody (r1.dropWhile (fun c => c = ':' || pyIsSpace c))

/-- Leftmost match of the labelled pattern `DOI[:\s]+(...)`. -/
def findDoiLabel : List Char → Option (List Char)
  | [] => none
  | c :: cs =>
    match matchDoiLabelAt (c :: cs) with
    | some d => some d
    | none => findDoiLabel cs

/-- Leftmost match of the bare pattern `\b(10\.\d+/[^\s\)]+)`; the flag
carries whether the previous character was a word character (for `\b`). -/
def findDoiBare : Bool → List Char → Option (List Char)
  | _, [] => none
  | prevWord, c :: cs =>
    match (if prevWord then none else matchDoiBody (c :: cs)) with
    | some d => some d
    | none => findDoiBare (isWordChar c) cs

/-- Strip trailing punctuation from a captured DOI, `re.sub(r'[.,;:]+$', '', doi)`. -/
def cleanDoiTail (cs : List Char) : List Char :=
  (cs.reverse.dropWhile (fun c => c = '.' || c = ',' || c = ';' || c = ':')).reverse

/-- Translation of `PaperMetadata._extract_doi_from_text`: three pattern
classes tried in order, first match of the first matching class wins, the
captured body is stripped of surrounding whitespace and trailing punctuation. -/
def _extract_doi_from_text (text : List Char) : Option (List Char) :=
  if text.isEmpty then none
  else
    match findDoiOrg text with
    | some d => some (cleanDoiTail (pyStrip d))
    | none =>
      match findDoiLabel text with
      | some d => some (cleanDoiTail (pyStrip d))
      | none =>
        match findDoiBare false text with
        | some d => some (cleanDoiTail (pyStrip d))
        | none => none

example : _extract_doi_from_text ("see https://doi.org/10.1/x and DOI: 10.2/y and bare 10.3/z.".toList)
    = some ("10.1/x".toList) := by decide

example : _extract_doi_from_text ("xx DOI: 10.22/yy.z; end".toList) = some ("10.22/yy.z".toList) := by
  decide

example : _extract_doi_from_text ("cite 10.33/ab-cd. done".toList) = some ("10.33/ab-cd".toList) := by
  decide

example : _extract_doi_from_text ("x10.33/ab".toList) = none := by decide

/-! ## Year extraction (`_extract_year_from_text`, organize_papers.py 496-517) -/

/-- Exactly four leading decimal digits, the `(\d{4})` capture; returns the
digits and the remaining input. -/
def take4Digits (cs : List Char) : Option (List Char × List Char) :=
  match cs with
  | c1 :: c2 :: c3 :: c4 :: rest =>
    if isDigitChar c1 && isDigitChar c2 && isDigitChar c3 && isDigitChar c4 then
      some ([c1, c2, c3, c4], rest)
    else none
  | _ => none

/-- Lazy `.*?\)` tail of the parenthesised-year pattern: consume
non-newline characters up to the first `)`, returning the rest. -/
def findCloseParen : List Char → Option (List Char)
  | [] => none
  | c :: cs => if c = ')' then some cs else if c = '\n' then none else findCloseParen cs

/-- Body of `\(.*?(\d{4}).*?\)` after the opening parenthesis: the first
lazy `.*?` grows one (non-newline) character at a time until a four-digit
capture followed by a reachable `)` is found. -/
def parenInner : List Char → Option (List Char × List Char)
  | [] => none
  | c :: cs =>
    match take4Digits (c :: cs) with
    | some (yr, rest2) =>
      match findCloseParen rest2 with
      | some rest3 => some (yr, rest3)
      | none => if c = '\n' then none else parenInner cs
    | none => if c = '\n' then none else parenInner cs

/-- Fuelled `re.findall(r'\(.*?(\d{4}).*?\)', t)`: non-overlapping leftmost
matches, resuming after each match; a failed opening parenthesis resumes at
the next character.  Fuel is the remaining input length. -/
def findallYearParenAux : Nat → List Char → List (List Char)
  | 0, _ => []
  | _ + 1, [] => []
  | fuel + 1, c :: cs =>
    if c = '(' then
      match parenInner cs with
      | some (yr, rest3) => yr :: findallYearParenAux fuel rest3
      | none => findallYearParenAux fuel cs
    else findallYearParenAux fuel cs

/-- All captures of the parenthesised-year pattern. -/
def findallYearParen (cs : List Char) : List (List Char) :=
  findallYearParenAux cs.length cs

/-- Match `\b(19|20)\d{2}\b` at the head of the input (the `\b` on the left
is checked by the caller); returns the captured century prefix and the rest
of the input after the full four-digit match. -/
def matchBareYearAt (cs : List Char) : Option (List Char × List Char) :=
  match cs with
  | c1 :: c2 :: c3 :: c4 :: rest =>
    if ((c1 = '1' && c2 = '9') || (c1 = '2' && c2 = '0')) &&
        isDigitChar c3 && isDigitChar c4 then
      match rest with
      | [] => some ([c1, c2], [])
      | r :: _ => if isWordChar r then none else some ([c1, c2], rest)
    else none
  | _ => none

/-- Fuelled `re.findall(r'\b(19|20)\d{2}\b', t)`; the flag carries whether
the previous character was a word character. -/
def findallYearBareAux : Nat → Bool → List Char → List (List Char)
  | 0, _, _ => []
  | _ + 1, _, [] => []
  | fuel + 1, prevWord, c :: cs =>
    match (if prevWord then none else matchBareYearAt (c :: cs)) with
    | some (grp, rest2) => grp :: findallYearBareAux fuel true rest2
    | none => findallYearBareAux fuel (isWordChar c) cs

/-- All captures of the bare-year pattern. -/
def findallYearBare (cs : List Char) : List (List Char) :=
  findallYearBareAux cs.length false cs

/-- Second iteration of the pattern loop in `_extract_year_from_text`: the
bare `(19|20)\d{2}` pattern, whose capture group holds only the century
prefix. -/
def yearBareCase (t : List Char) : Option (List Char) :=
  match (findallYearBare t).getLast? with
  | some y => if 1900 ≤ natOfDigits y && natOfDigits y ≤ 2100 then some y else none
  | none => none

/-- Translation of `PaperMetadata._extract_year_from_text`: over the first
2000 characters, take the last capture of the parenthesised pattern and
return it if it lies in 1900-2100; otherwise fall through to the bare
pattern, whose last capture is validated the same way. -/
def _extract_year_from_text (text : List Char) : Option (List Char) :=
  match (findallYearParen (text.take 2000)).getLast? with
  | some y =>
    if 1900 ≤ natOfDigits y && natOfDigits y ≤ 2100 then some y
    else yearBareCase (text.take 2000)
  | none => yearBareCase (text.take 2000)

example : _extract_year_from_text ("(Received 3 Jan 1999; published 22 May 2005)".toList)
    = some ("1999".toList) := by decide

example : findallYearParen ("(1999) and (2005)".toList) = ["1999".toList, "2005".toList] := by
  decide

example : findallYearParen ("(20 05)(1987b)".toList) = ["1987".toList] := by decide

example : findallYearBare ("20155 1987".toList) = [['1', '9']] := by decide

example : _extract_year_from_text ("published 2005".toList) = none := by decide

example : _extract_year_from_text ("(Dated: April 9, 2008)".toList) = some ("2008".toList) := by
  decide

example : _extract_year_from_text ("(0042) and 1985".toList) = none := by decide

/-! ## Title extraction (`_extract_title_from_text`, organize_papers.py 277-365) -/

/-- Remainder after `^.*?arXiv:[^\s]+\s*` at the head (one attempt of the
lazy scan): requires the literal `arXiv:` here followed by at least one
non-space character, then skips trailing whitespace. -/
def arxivIdAt (cs : List Char) : Option (List Char) :=
  match dropLit ('a' :: 'r' :: 'X' :: 'i' :: 'v' :: ':' :: []) cs with
  | none => none
  | some r1 =>
    let body := r1.takeWhile (fun c => !pyIsSpace c)
    if body.isEmpty then none
    else some ((r1.dropWhile (fun c => !pyIsSpace c)).dropWhile pyIsSpace)

/-- Leftmost occurrence scan of the lazy prefix `^.*?arXiv:[^\s]+\s*`; a
newline stops the dot. -/
def findArxivId : List Char → Option (List Char)
  | [] => none
  | c :: cs =>
    match arxivIdAt (c :: cs) with
    | some r => some r
    | none => if c = '\n' then none else findArxivId cs

/-- Application of `re.sub(r'^.*?arXiv:[^\s]+\s*', '', line)`: the line is
unchanged when the pattern does not match. -/
def stripArxivId (line : List Char) : List Char := (findArxivId line).getD line

/-- Application of `re.sub(r'^\[[^\]]+\]\s*', '', s)`. -/
def stripBracketTag (cs : List Char) : List Char :=
  match cs with
  | '[' :: rest =>
    let inner := rest.takeWhile (· ≠ ']')
    if inner.isEmpty then cs
    else
      match rest.dropWhile (· ≠ ']') with
      | ']' :: rest2 => rest2.dropWhile pyIsSpace
      | _ => cs
  | _ => cs

/-- Tail `\s+\w+\s+\d{4}` of the leading-date pattern; returns the rest of
the input after the four digits. -/
def dateTail (cs : List Char) : Option (List Char) :=
  let s1 := cs.takeWhile pyIsSpace
  if s1.isEmpty then none
  else
    let r1 := cs.dropWhile pyIsSpace
    let w := r1.takeWhile isWordChar
    if w.isEmpty then none
    else
      let r2 := r1.dropWhile isWordChar
      let s2 := r2.takeWhile pyIsSpace
      if s2.isEmpty then none
      else
        match take4Digits (r2.dropWhile pyIsSpace) with
        | some (_, rest) => some rest
        | none => none

/-- Application of `re.sub(r'^\d{1,2}\s+\w+\s+\d{4}', '', s)`; the greedy
`\d{1,2}` tries two digits before one. -/
def stripLeadingDate (cs : List Char) : List Char :=
  match cs with
  | c1 :: c2 :: rest =>
    if isDigitChar c1 then
      if isDigitChar c2 then
        match dateTail rest with
        | some r => r
        | none =>
          match dateTail (c2 :: rest) with
          | some r => r
          | none => cs
      else
        match dateTail (c2 :: rest) with
        | some r => r
        | none => cs
    else cs
  | _ => cs

/-- Processed arXiv header line: identifier, bracketed category tag and
leading date stripped, then trimmed and whitespace-normalised
(organize_papers.py 288-295). -/
def arxivTitle (line : List Char) : List Char :=
  normalizeWs (pyStrip (stripLeadingDate (stripBracketTag (stripArxivId line))))

/-- Head-of-line metadata marker
`re.search(r'^\(|^Received|^Published|^DOI:|^www\.|^http', line, re.IGNORECASE)`. -/
def startsMetaMarker (line : List Char) : Bool :=
  (match line with | '(' :: _ => true | _ => false) ||
  (dropLitCI ("received".toList) line).isSome ||
  (dropLitCI ("published".toList) line).isSome ||
  (dropLitCI ("doi:".toList) line).isSome ||
  (dropLitCI ("www.".toList) line).isSome ||
  (dropLitCI ("http".toList) line).isSome

/-- Existence of a digit immediately followed by a comma or whitespace,
`re.search(r'\d+[,\s]', line)`. -/
def hasDigitSep : List Char → Bool
  | c1 :: c2 :: rest =>
    (isDigitChar c1 && (c2 = ',' || pyIsSpace c2)) || hasDigitSep (c2 :: rest)
  | _ => false

/-- Author-line shape used to skip candidate title lines: a comma, a digit
adjacent to a separator, and fewer than 150 characters. -/
def looksAuthorish (line : List Char) : Bool :=
  line.contains ',' && hasDigitSep line && line.length < 150

/-- Start-of-string label `re.search(r'^DOI:|^www\.', s, re.IGNORECASE)`. -/
def startsDoiWww (cs : List Char) : Bool :=
  (dropLitCI ("doi:".toList) cs).isSome || (dropLitCI ("www.".toList) cs).isSome

/-- Start-of-string shape `re.match(r'^[A-Z][a-z]+\s+[A-Z]', s)` (one
capitalised word then another capital). -/
def startsNameCap (cs : List Char) : Bool :=
  match cs with
  | c :: rest =>
    if isUpperChar c then
      let ls := rest.takeWhile isLowerChar
      if ls.isEmpty then false
      else
        let r2 := rest.dropWhile isLowerChar
        let sp := r2.takeWhile pyIsSpace
        if sp.isEmpty then false
        else
          match r2.dropWhile pyIsSpace with
          | d :: _ => isUpperChar d
          | [] => false
    else false
  | [] => false

/-- Uppercase first character, Python `s[0].isupper()` (false on empty). -/
def headUpper : List Char → Bool
  | c :: _ => isUpperChar c
  | [] => false

/-- Acceptance test for a joined multi-line title candidate
(organize_papers.py 324-330). -/
def combinedOk (combined : List Char) : Bool :=
  30 ≤ combined.length && combined.length ≤ 250 &&
  headUpper combined &&
  !combined.contains '@' &&
  !containsSub ("http".toList) (lowerStr combined) &&
  !startsDoiWww combined &&
  !startsNameCap combined

/-- One window attempt in the multi-line title scan: join `n` lines
starting at index `i`, skipping windows containing an author-shaped line. -/
def titleWindow (lines : List (List Char)) (i n : Nat) : Option (List Char) :=
  if i + n ≤ lines.length then
    let w := (lines.drop i).take n
    if w.any looksAuthorish then none
    else
      let combined := joinSpace w
      if combinedOk combined then some (pyStrip (normalizeWs combined)) else none
  else none

/-- Multi-line title scan body at start index `i` (organize_papers.py 301-333). -/
def titleMultiAt (lines : List (List Char)) (i : Nat) : Option (List Char) :=
  let line := lines.getD i []
  if startsMetaMarker line then none
  else if looksAuthorish line then none
  else
    match titleWindow lines i 2 with
    | some t => some t
    | none => titleWindow lines i 3

/-- First hit of `f` over a list of indices. -/
def firstHit (f : Nat → Option (List Char)) : List Nat → Option (List Char)
  | [] => none
  | i :: is =>
    match f i with
    | some t => some t
    | none => firstHit f is

/-- Multi-line title scan over start indices `0 ≤ i < min 5 (len - 1)`. -/
def titleMultiScan (lines : List (List Char)) : Option (List Char) :=
  firstHit (titleMultiAt lines) (List.range (min 5 (lines.length - 1)))

/-- Full-line name shape
`re.match(r'^[A-Z][a-z]+\s+[A-Z][a-z]+(?:\s+[A-Z][a-z]+)?$', line)`:
exactly two or three capitalised words. -/
def nameShape23 (cs : List Char) : Bool :=
  match cs with
  | c :: rest =>
    if isUpperChar c then
      let ls := rest.takeWhile isLowerChar
      if ls.isEmpty then false
      else
        let r2 := rest.dropWhile isLowerChar
        let sp := r2.takeWhile pyIsSpace
        if sp.isEmpty then false
        else
          match r2.dropWhile pyIsSpace with
          | d :: rest2 =>
            if isUpperChar d then
              let ls2 := rest2.takeWhile isLowerChar
              if ls2.isEmpty then false
              else
                match rest2.dropWhile isLowerChar with
                | [] => true
                | r3 =>
                  let sp2 := r3.takeWhile pyIsSpace
                  if sp2.isEmpty then false
                  else
                    match r3.dropWhile pyIsSpace with
                    | e :: rest3 =>
                      if isUpperChar e then
                        let ls3 := rest3.takeWhile isLowerChar
                        !ls3.isEmpty && (rest3.dropWhile isLowerChar).isEmpty
                      else false
                    | [] => false
            else false
          | [] => false
    else false
  | [] => false

/-- Leading digits followed by a separator, `re.match(r'^\d+[,\s]', line)`. -/
def startsDigitSep (cs : List Char) : Bool :=
  match cs with
  | c :: rest =>
    isDigitChar c &&
      (match rest.dropWhile isDigitChar with
       | d :: _ => d = ',' || pyIsSpace d
       | [] => false)
  | [] => false

/-- Acceptance test for a single-line title candidate (organize_papers.py 354-357). -/
def singleLineOk (line : List Char) : Bool :=
  20 ≤ line.length && line.length ≤ 200 &&
  !line.contains '@' &&
  !containsSub ("http".toList) (lowerStr line) &&
  !startsDigitSep line

/-- Single-line title scan over `enumerate(lines[:8])`
(organize_papers.py 336-363); only indices below 3 with a capitalised
head can be returned. -/
def titleSingleScan : Nat → List (List Char) → Option (List Char)
  | _, [] => none
  | i, line :: rest =>
    if 8 ≤ i then none
    else if startsMetaMarker line then titleSingleScan (i + 1) rest
    else if line.contains ',' && hasDigitSep line && line.length < 150 then
      titleSingleScan (i + 1) rest
    else if nameShape23 line && line.length < 50 then titleSingleScan (i + 1) rest
    else if singleLineOk line && i < 3 && headUpper line then some line
    else titleSingleScan (i + 1) rest

/-- Translation of `PaperMetadata._extract_title_from_text`: arXiv header
branch, then multi-line candidate windows, then single-line scan. -/
def _extract_title_from_text (lines : List (List Char)) : Option (List Char) :=
  match lines with
  | [] => none
  | l0 :: _ =>
    let arxivHit :=
      if containsSub ("arXiv:".toList) l0 then
        let t := arxivTitle l0
        if 20 ≤ t.length && t.length ≤ 200 then some t else none
      else none
    match arxivHit with
    | some t => some t
    | none =>
      match titleMultiScan lines with
      | some t => some t
      | none => titleSingleScan 0 lines

example : _extract_title_from_text
    [("arXiv:1234.5678 [cond-mat] 9 Apr 2008 Quantum effects in disordered systems".toList),
     ("J. Smith, A. Doe".toList)]
    = some ("Quantum effects in disordered systems".toList) := by decide

example : _extract_title_from_text
    [("A very interesting study of quantum entanglement in solids".toList),
     ("J. Smith1, A. Doe2".toList), ("University of X".toList)]
    = some ("A very interesting study of quantum entanglement in solids".toList) := by decide

example : _extract_title_from_text
    [("Quantum effects in".toList), ("disordered media and glasses".toList),
     ("J. Smith, A. Doe1".toList)]
    = some ("Quantum effects in disordered media and glasses".toList) := by decide

example : _extract_title_from_text
    [("arXiv:1 short".toList), ("Second line of something long enough for title maybe".toList)]
    = some ("Second line of something long enough for title maybe".toList) := by decide

example : _extract_title_from_text
    [("Received 1 Jan 2000".toList), ("(some meta)".toList),
     ("An actual paper title spanning quite some words".toList)]
    = some ("An actual paper title spanning quite some words".toList) := by decide

example : _extract_title_from_text
    [("John Smith".toList), ("Tiny".toList), ("DOI: 10.1/x abcdefghijklmnop".toList)]
    = none := by decide

example : _extract_title_from_text
    [("on the theory of lowercase titles never accepted here".toList),
     ("second line also lowercase start".toList)]
    = none := by decide

/-! ## Author-line parsing (`_parse_author_line`, organize_papers.py 440-494) -/

/-- Match of `,\s*\d+[,\s]*` at the head of the input; returns the rest of
the input after the greedy match. -/
def commaDigitsAt (cs : List Char) : Option (List Char) :=
  match cs with
  | ',' :: r =>
    let r1 := r.dropWhile pyIsSpace
    let ds := r1.takeWhile isDigitChar
    if ds.isEmpty then none
    else some ((r1.dropWhile isDigitChar).dropWhile (fun c => c = ',' || pyIsSpace c))
  | _ => none

/-- Fuelled `re.sub(r',\s*\d+[,\s]*', ', ', s)`: scan left to right,
replacing each match with a comma and a blank. -/
def subCommaDigitsAux : Nat → List Char → List Char
  | 0, cs => cs
  | _ + 1, [] => []
  | fuel + 1, c :: cs =>
    match commaDigitsAt (c :: cs) with
    | some rest2 => ',' :: ' ' :: subCommaDigitsAux fuel rest2
    | none => c :: subCommaDigitsAux fuel cs

/-- Strip numeric affiliation superscripts, `re.sub(r',\s*\d+[,\s]*', ', ', s)`. -/
def subCommaDigits (cs : List Char) : List Char := subCommaDigitsAux cs.length cs

/-- Fuelled `re.sub(r'\*\s*', '', s)`. -/
def subStarAux : Nat → List Char → List Char
  | 0, cs => cs
  | _ + 1, [] => []
  | fuel + 1, c :: cs =>
    if c = '*' then subStarAux fuel (cs.dropWhile pyIsSpace)
    else c :: subStarAux fuel cs

/-- Strip asterisks, `re.sub(r'\*\s*', '', s)`. -/
def subStar (cs : List Char) : List Char := subStarAux cs.length cs

/-- Match of `\s+and\s+` (case-insensitive) at the head of the input. -/
def andSepAt (cs : List Char) : Option (List Char) :=
  let s1 := cs.takeWhile pyIsSpace
  if s1.isEmpty then none
  else
    match dropLitCI ("and".toList) (cs.dropWhile pyIsSpace) with
    | none => none
    | some r2 =>
      let s2 := r2.takeWhile pyIsSpace
      if s2.isEmpty then none else some (r2.dropWhile pyIsSpace)

/-- Fuelled `re.sub(r'\s+and\s+', ', ', s, flags=re.IGNORECASE)`. -/
def subAndAux : Nat → List Char → List Char
  | 0, cs => cs
  | _ + 1, [] => []
  | fuel + 1, c :: cs =>
    match andSepAt (c :: cs) with
    | some rest2 => ',' :: ' ' :: subAndAux fuel rest2
    | none => c :: subAndAux fuel cs

/-- Normalise `" and "` separators to commas. -/
def subAnd (cs : List Char) : List Char := subAndAux cs.length cs

/-- Unanchored `re.search(r'[A-Z][a-z]+\s+[A-Z]', line)`. -/
def hasNameCap : List Char → Bool
  | [] => false
  | c :: cs => startsNameCap (c :: cs) || hasNameCap cs

/-- Python `str.isdigit` (ASCII fragment): non-empty and all digits. -/
def pyIsDigitStr (cs : List Char) : Bool := !cs.isEmpty && cs.all isDigitChar

/-- Institution keywords rejected inside an author token (organize_papers.py 469). -/
def institutionWords : List (List Char) :=
  [("university".toList), ("department".toList), ("institute".toList),
   ("laboratory".toList), ("center".toList), ("centre".toList),
   ("college".toList), ("school".toList)]

/-- Domain suffix `re.search(r'\.(org|com|edu|net)', s, re.IGNORECASE)`. -/
def hasDomainSuffix (cs : List Char) : Bool :=
  containsSubCI (".org".toList) cs || containsSubCI (".com".toList) cs ||
  containsSubCI (".edu".toList) cs || containsSubCI (".net".toList) cs

/-- Strip leading digits and following separators, `re.sub(r'^\d+[,\s]*', '', s)`. -/
def stripLeadNum (cs : List Char) : List Char :=
  match cs with
  | c :: _ =>
    if isDigitChar c then
      (cs.dropWhile isDigitChar).dropWhile (fun d => d = ',' || pyIsSpace d)
    else cs
  | [] => cs

/-- Strip trailing digits and preceding separators, `re.sub(r'[,\s]*\d+$', '', s)`. -/
def stripTrailNum (cs : List Char) : List Char :=
  match cs.reverse with
  | c :: _ =>
    if isDigitChar c then
      ((cs.reverse.dropWhile isDigitChar).dropWhile (fun d => d = ',' || pyIsSpace d)).reverse
    else cs
  | [] => cs

/-- Per-token filter of the author-line parser (organize_papers.py 463-485):
clean a comma-separated token and accept it when it still looks like a name. -/
def acceptAuthorToken (part0 : List Char) : Option (List Char) :=
  let part := pyStrip part0
  if part.length < 3 || pyIsDigitStr part then none
  else if institutionWords.any (fun w => containsSub w (lowerStr part)) then none
  else if containsSub ("et al".toList) (lowerStr part) || hasDomainSuffix part then none
  else
    let author := pyStrip (stripTrailNum (stripLeadNum part))
    if 3 ≤ author.length && author.any isAlphaChar && headUpper author then some author
    else none

/-- Accepted name tokens of a (already substituted) author line. -/
def acceptedAuthors (line : List Char) : List (List Char) :=
  ((splitComma (subAnd (subStar (subCommaDigits line)))).map pyStrip).filterMap
    acceptAuthorToken

/-- Translation of `PaperMetadata._parse_author_line`: reject unusable
lines, normalise separators, split on commas, filter name tokens, and join
at most the first six with `", "` provided the join is longer than five
characters. -/
def _parse_author_line (line : List Char) : Option (List Char) :=
  if line.isEmpty || line.length < 5 then none
  else if containsSubCI ("http".toList) line || containsSubCI ("www.".toList) line ||
      containsSubCI (".org".toList) line || containsSubCI (".com".toList) line ||
      containsSubCI (".edu".toList) line || containsSubCI ("sciencemag".toList) line ||
      containsSubCI ("arxiv".toList) line then none
  else if !line.contains ',' && !hasNameCap line then none
  else if (acceptedAuthors line).isEmpty then none
  else if 5 < (joinCommaSpace ((acceptedAuthors line).take 6)).length then
    some (joinCommaSpace ((acceptedAuthors line).take 6))
  else none

example : _parse_author_line ("Smith, J.1, Doe, A.2, and University of X".toList)
    = some ("Smith, Doe".toList) := by decide

example : _parse_author_line ("John Smith1,2 and Jane Doe3".toList)
    = some ("John Smith, Jane Doe".toList) := by decide

example : _parse_author_line ("A. Einstein, B. Podolsky, N. Rosen".toList)
    = some ("A. Einstein, B. Podolsky, N. Rosen".toList) := by decide

example : _parse_author_line ("Alice Brown* and Bob Green".toList)
    = some ("Alice Brownand Bob Green".toList) := by decide

example : _parse_author_line
    ("One Two Three Four Five Six Seven Eight, Nine Ten, Eleven Woo, Twelve Xu, Thirteen Yi, Fourteen Zed, Fifteen Qu".toList)
    = some ("One Two Three Four Five Six Seven Eight, Nine Ten, Eleven Woo, Twelve Xu, Thirteen Yi, Fourteen Zed".toList) := by
  decide

example : _parse_author_line ("abc".toList) = none := by decide

example : _parse_author_line ("lowercase names, other things 1".toList) = none := by decide

example : _parse_author_line ("Wu, X.".toList) = none := by decide

example : _parse_author_line ("12 Main Street, Anytown".toList)
    = some ("Main Street, Anytown".toList) := by decide

/-! ## Authors extraction (`_extract_authors_from_text`, organize_papers.py 367-438) -/

/-- Word of at least two letters, `[A-Z][a-z]+` under `re.IGNORECASE`
(both classes match any ASCII letter); returns the word and the rest. -/
def takeWordGe2 (cs : List Char) : Option (List Char × List Char) :=
  match cs with
  | c :: rest =>
    if isAlphaChar c then
      let run := rest.takeWhile isAlphaChar
      if run.isEmpty then none else some (c :: run, rest.dropWhile isAlphaChar)
    else none
  | [] => none

/-- Greedy star `(?:\s+[A-Z][a-z]+)*` of the et-al capture, accumulating
the exact matched characters; fuelled by input length. -/
def etAlStar : Nat → List Char → List Char × List Char
  | 0, cs => ([], cs)
  | fuel + 1, cs =>
    let sp := cs.takeWhile pyIsSpace
    if sp.isEmpty then ([], cs)
    else
      match takeWordGe2 (cs.dropWhile pyIsSpace) with
      | some (w, rest2) =>
        let next := etAlStar fuel rest2
        (sp ++ w ++ next.1, next.2)
      | none => ([], cs)

/-- Optional tail `(?:\s+[A-Z]\.?[a-z]*)?` of the et-al capture. -/
def etAlTail (cs : List Char) : List Char :=
  let sp := cs.takeWhile pyIsSpace
  if sp.isEmpty then []
  else
    match cs.dropWhile pyIsSpace with
    | c :: rest =>
      if isAlphaChar c then
        match rest with
        | '.' :: rest2 => sp ++ c :: '.' :: rest2.takeWhile isAlphaChar
        | _ => sp ++ c :: rest.takeWhile isAlphaChar
      else []
    | [] => []

/-- Match of the et-al pattern
`et\s+al\.?\s+([A-Z][a-z]+(?:\s+[A-Z][a-z]+)*(?:\s+[A-Z]\.?[a-z]*)?)`
(case-insensitive) at the head of the input, returning the capture. -/
def etAlAt (cs : List Char) : Option (List Char) :=
  match dropLitCI ("et".toList) cs with
  | none => none
  | some r1 =>
    let sp1 := r1.takeWhile pyIsSpace
    if sp1.isEmpty then none
    else
      match dropLitCI ("al".toList) (r1.dropWhile pyIsSpace) with
      | none => none
      | some r2 =>
        let r3 := match r2 with | '.' :: rest => rest | _ => r2
        let sp2 := r3.takeWhile pyIsSpace
        if sp2.isEmpty then none
        else
          match takeWordGe2 (r3.dropWhile pyIsSpace) with
          | some (w1, rest1) =>
            let star := etAlStar rest1.length rest1
            some (w1 ++ star.1 ++ etAlTail star.2)
          | none => none

/-- Leftmost et-al match in a line. -/
def findEtAl : List Char → Option (List Char)
  | [] => none
  | c :: cs =>
    match etAlAt (c :: cs) with
    | some grp => some (pyStrip grp)
    | none => findEtAl cs

/-- Captured names rejected after an et-al hit (organize_papers.py 381). -/
def etAlBannedWords : List (List Char) :=
  [("science".toList), ("nature".toList), ("cell".toList),
   ("journal".toList), ("article".toList), ("paper".toList)]

/-- Scan of `lines[:10]` for a valid et-al capture (organize_papers.py 373-382). -/
def etAlScan : List (List Char) → Option (List Char)
  | [] => none
  | line :: rest =>
    match findEtAl line with
    | some name =>
      if !hasDomainSuffix line && 2 < name.length &&
          !etAlBannedWords.contains (lowerStr name) then some name
      else etAlScan rest
    | none => etAlScan rest

/-- Substring markers that disqualify a line from the author multi-line scan
(organize_papers.py 388). -/
def authorSkipMarker (line : List Char) : Bool :=
  containsSubCI ("http".toList) line || containsSubCI ("www.".toList) line ||
  containsSubCI (".org".toList) line || containsSubCI (".com".toList) line ||
  containsSubCI (".edu".toList) line || containsSubCI ("doi".toList) line ||
  containsSubCI ("received".toList) line || containsSubCI ("published".toList) line ||
  containsSubCI ("pacs".toList) line || containsSubCI ("abstract".toList) line ||
  containsSubCI ("introduction".toList) line

/-- URL-bearing line test used inside candidate windows (organize_papers.py 405). -/
def urlMarker (line : List Char) : Bool :=
  containsSubCI ("http".toList) line || containsSubCI ("www.".toList) line ||
  containsSubCI (".org".toList) line || containsSubCI (".com".toList) line ||
  containsSubCI (".edu".toList) line

/-- Title-shaped line (no comma, bounded length, capitalised) with the outer
scan's threshold of 20 characters (organize_papers.py 392-397). -/
def titleLike20 (line : List Char) : Bool :=
  !line.contains ',' && 20 < line.length && line.length < 200 &&
  headUpper line && !containsSub ("http".toList) (lowerStr line)

/-- Title-shaped line with the window check's threshold of 15 characters
(organize_papers.py 413-418). -/
def titleLike15 (line : List Char) : Bool :=
  !line.contains ',' && 15 < line.length && line.length < 200 &&
  headUpper line && !containsSub ("http".toList) (lowerStr line)

/-- One window attempt in the multi-line author scan. -/
def authorWindow (lines : List (List Char)) (i n : Nat) : Option (List Char) :=
  if i + n ≤ lines.length then
    let w := (lines.drop i).take n
    if w.any urlMarker then none
    else if titleLike15 (lines.getD i []) then none
    else _parse_author_line (joinSpace w)
  else none

/-- Multi-line author scan body at start index `i` (organize_papers.py 386-426). -/
def authorMultiAt (lines : List (List Char)) (i : Nat) : Option (List Char) :=
  let line := lines.getD i []
  if authorSkipMarker line then none
  else if titleLike20 line then none
  else
    match authorWindow lines i 2 with
    | some a => some a
    | none => authorWindow lines i 3

/-- Multi-line author scan over start indices `1 ≤ i < min 7 (len lines)`. -/
def authorMultiScan (lines : List (List Char)) : Option (List Char) :=
  firstHit (authorMultiAt lines) ((List.range (min 7 lines.length)).drop 1)

/-- Anchored start markers for the single-line author scan (organize_papers.py 431). -/
def authorStartMarker (line : List Char) : Bool :=
  (dropLitCI ("received".toList) line).isSome ||
  (dropLitCI ("published".toList) line).isSome ||
  (dropLitCI ("doi".toList) line).isSome ||
  (dropLitCI ("pacs".toList) line).isSome ||
  (dropLitCI ("abstract".toList) line).isSome ||
  (dropLitCI ("introduction".toList) line).isSome ||
  (dropLitCI ("department".toList) line).isSome ||
  (dropLitCI ("university".toList) line).isSome ||
  (dropLitCI ("institute".toList) line).isSome ||
  (dropLitCI ("http".toList) line).isSome ||
  (dropLitCI ("www.".toList) line).isSome ||
  (dropLitCI (".org".toList) line).isSome ||
  (dropLitCI (".com".toList) line).isSome ||
  (dropLitCI (".edu".toList) line).isSome

/-- Single-line author scan over `lines[1:8]` (organize_papers.py 429-436). -/
def authorSingleScan : List (List Char) → Option (List Char)
  | [] => none
  | line :: rest =>
    if authorStartMarker line then authorSingleScan rest
    else
      match _parse_author_line line with
      | some a => some a
      | none => authorSingleScan rest

/-- Translation of `PaperMetadata._extract_authors_from_text`: et-al scan
over the first ten lines, then joined 2-3 line windows, then single lines. -/
def _extract_authors_from_text (lines : List (List Char)) : Option (List Char) :=
  match lines with
  | [] => none
  | _ =>
    match etAlScan (lines.take 10) with
    | some a => some a
    | none =>
      match authorMultiScan lines with
      | some a => some a
      | none => authorSingleScan ((lines.take 8).drop 1)

example : _extract_authors_from_text
    [("Title of paper here".toList), ("J. Smith1, A. Doe2".toList),
     ("Department of Physics".toList)]
    = some ("J. Smith".toList) := by decide

example : _extract_authors_from_text
    [("A study by Brown et al. Nature is great".toList), ("J. Smith, K. Jones".toList)]
    = some ("Nature is great".toList) := by decide

example : _extract_authors_from_text
    [("see et al. Smith for details".toList), ("other line".toList)]
    = some ("Smith for details".toList) := by decide

example : _extract_authors_from_text
    [("Some title".toList), ("Short line".toList), ("Alice Brown, Bob Green,".toList),
     ("more text follows here".toList)]
    = some ("Short line Alice Brown, Bob Green".toList) := by decide

example : _extract_authors_from_text
    [("T".toList), ("Received 2020".toList), ("Carol White1 and Dan Black2".toList),
     ("University of Y".toList)]
    = some ("Carol White, Dan Black".toList) := by decide

example : _extract_authors_from_text
    [("Title".toList), ("no names here at all".toList), ("none either".toList)]
    = none := by decide

/-! ## Data model: the `PaperMetadata` accumulator and external inputs -/

/-- Metadata fields of a `PaperMetadata` instance (organize_papers.py 54-60);
`none` is Python `None`. -/
structure Candidate where
  title : Option (List Char)
  author : Option (List Char)
  year : Option (List Char)
  journal : Option (List Char)
  url : Option (List Char)
  deriving Repr, DecidableEq

/-- Fields as initialised in `PaperMetadata.__init__`. -/
def initCandidate : Candidate :=
  { title := none, author := none, year := none, journal := none, url := none }

/-- Python truthiness of an optional string field (`if not self.title` is
true on `None` and on the empty string). -/
def pyTruthy : Option (List Char) → Bool
  | none => false
  | some v => !v.isEmpty

/-- Crossref string-or-list JSON values (`title`, `container-title`). -/
inductive StrOrList where
  | str (v : List Char)
  | list (vs : List (List Char))
  deriving Repr, DecidableEq

/-- Python truthiness of a string-or-list value. -/
def solTruthy : StrOrList → Bool
  | .str v => !v.isEmpty
  | .list vs => !vs.isEmpty

/-- One entry of the Crossref `author` array; `given`/`family` carry the
`.get(..., '')` default. -/
structure CrAuthor where
  given : List Char
  family : List Char
  deriving Repr, DecidableEq

/-- One of the Crossref date fields; `dateParts` carries the
`.get('date-parts', [])` default. -/
structure CrDate where
  dateParts : List (List Nat)
  deriving Repr, DecidableEq

/-- Parsed `message` object of a Crossref work response; `none` models an
absent (or, for the date dicts, falsy) member. -/
structure CrMsg where
  title : Option StrOrList
  author : Option (List CrAuthor)
  publishedPrint : Option CrDate
  publishedOnline : Option CrDate
  issued : Option CrDate
  containerTitle : Option StrOrList
  urlField : Option (List Char)
  link : Option (List (Option (List Char)))
  deriving Repr, DecidableEq

/-- Outcome of the single Crossref HTTP request as seen by
`_fetch_metadata_from_crossref`. -/
inductive CrResponse where
  | ok (msg : Option CrMsg)
  | rateLimited
  | otherStatus
  | netError
  deriving Repr, DecidableEq

/-- First element of a truthy string-or-list value (`titles[0]`, or the
string itself). -/
def solFirst : StrOrList → Option (List Char)
  | .str v => if v.isEmpty then none else some v
  | .list [] => none
  | .list (t :: _) => some t

/-- Formatted author display names from the Crossref `author` array
(organize_papers.py 215-224). -/
def crFormatAuthors (entries : List CrAuthor) : List (List Char) :=
  entries.filterMap fun a =>
    if a.family.isEmpty then none
    else if a.given.isEmpty then some a.family
    else some (a.given ++ ' ' :: a.family)

/-- Year from one Crossref date field (`date_parts[0][0]`), provided the
nested lists are non-empty (organize_papers.py 231-242). -/
def crDateYear (d : CrDate) : Option (List Char) :=
  match d.dateParts with
  | [] => none
  | p0 :: _ =>
    match p0 with
    | [] => none
    | y :: _ => some (natToStr y)

/-- Title merge of the Crossref response (organize_papers.py 205-211). -/
def crTitleStep (msg : CrMsg) (s : Candidate) : Candidate :=
  match msg.title with
  | some t =>
    if solTruthy t then
      match solFirst t with
      | some v => { s with title := some v }
      | none => s
    else s
  | none => s

/-- Author merge of the Crossref response (organize_papers.py 213-228). -/
def crAuthorStep (msg : CrMsg) (s : Candidate) : Candidate :=
  match msg.author with
  | some entries =>
    if entries.isEmpty then s
    else if (crFormatAuthors entries).isEmpty then s
    else { s with author := some (joinCommaSpace ((crFormatAuthors entries).take 6)) }
  | none => s

/-- Year merge of the Crossref response (organize_papers.py 230-242):
`published-print`, then `published-online`, then `issued`; a present but
unusable date field stops the chain without setting the year. -/
def crYearStep (msg : CrMsg) (s : Candidate) : Candidate :=
  match msg.publishedPrint with
  | some d =>
    match crDateYear d with
    | some y => { s with year := some y }
    | none => s
  | none =>
    match msg.publishedOnline with
    | some d =>
      match crDateYear d with
      | some y => { s with year := some y }
      | none => s
    | none =>
      match msg.issued with
      | some d =>
        match crDateYear d with
        | some y => { s with year := some y }
        | none => s
      | none => s

/-- Journal merge of the Crossref response (organize_papers.py 244-250). -/
def crJournalStep (msg : CrMsg) (s : Candidate) : Candidate :=
  match msg.containerTitle with
  | some t =>
    if solTruthy t then
      match solFirst t with
      | some v => { s with journal := some v }
      | none => s
    else s
  | none => s

/-- URL merge of the Crossref response (organize_papers.py 252-259): a
present `URL` key wins even when empty; otherwise the first `link` entry. -/
def crUrlStep (msg : CrMsg) (s : Candidate) : Candidate :=
  match msg.urlField with
  | some u => { s with url := some u }
  | none =>
    match msg.link with
    | some links =>
      if links.isEmpty then s
      else
        match links with
        | l0 :: _ => { s with url := some (l0.getD []) }
        | [] => s
    | none => s

/-- Field merge performed on an HTTP 200 response carrying a `message`
object (organize_papers.py 202-261): every present field overwrites the
candidate in source order, absent fields leave it unchanged. -/
def applyCrossref (msg : CrMsg) (s : Candidate) : Candidate :=
  crUrlStep msg (crJournalStep msg (crYearStep msg (crAuthorStep msg (crTitleStep msg s))))

/-- Translation of `PaperMetadata._fetch_metadata_from_crossref`: returns
the updated candidate, the Boolean reported to the caller, and the number
of seconds slept (1 only on HTTP 429).  Transport failures and non-200/429
statuses report `false` without touching the candidate. -/
def _fetch_metadata_from_crossref (requestsSupport : Bool) (resp : CrResponse)
    (s : Candidate) : Candidate × Bool × Nat :=
  if !requestsSupport then (s, false, 0)
  else
    match resp with
    | .ok (some msg) => (applyCrossref msg s, true, 0)
    | .ok none => (s, false, 0)
    | .rateLimited => (s, false, 1)
    | .otherStatus => (s, false, 0)
    | .netError => (s, false, 0)

/-- Embedded document metadata handed over by the PDF reader
(`pdf.metadata`); `creationDate` carries the `.get('/CreationDate', '')`
default. -/
structure PdfMeta where
  title : Option (List Char)
  author : Option (List Char)
  creationDate : List Char
  deriving Repr, DecidableEq

/-- Decoded document content: per-page extracted texts and the (possibly
falsy) metadata dictionary. -/
structure PdfContent where
  pages : List (List Char)
  meta : Option PdfMeta
  deriving Repr, DecidableEq

/-- First run of four digits in a string, `re.search(r'(\d{4})', s)`. -/
def first4DigitRun : List Char → Option (List Char)
  | [] => none
  | c :: cs =>
    match take4Digits (c :: cs) with
    | some (y, _) => some y
    | none => first4DigitRun cs

/-- Embedded-metadata stage (organize_papers.py 117-125): `/Title` and
`/Author` are assigned unconditionally, the year only when a four-digit run
occurs in the creation date. -/
def embeddedStage (pdf : PdfContent) (s : Candidate) : Candidate :=
  match pdf.meta with
  | none => s
  | some m =>
    let s1 := { s with title := m.title, author := m.author }
    match first4DigitRun m.creationDate with
    | some y => { s1 with year := some y }
    | none => s1

/-- In-text heuristic stage (organize_papers.py 127-154): title and author
from page-1 lines (page 2 as backup), year from raw page-1 text, each only
when the field is still falsy. -/
def textStage (pdf : PdfContent) (s : Candidate) : Candidate :=
  match pdf.pages with
  | [] => s
  | p0 :: restPages =>
    let lines := toLines p0
    let s1 := if pyTruthy s.title then s
      else { s with title := _extract_title_from_text lines }
    let s2 := if !pyTruthy s1.title && !restPages.isEmpty then
        { s1 with title := _extract_title_from_text (toLines (restPages.getD 0 [])) }
      else s1
    let s3 := if pyTruthy s2.author then s2
      else { s2 with author := _extract_authors_from_text lines }
    let s4 := if !pyTruthy s3.author && !restPages.isEmpty then
        { s3 with author := _extract_authors_from_text (toLines (restPages.getD 0 [])) }
      else s3
    if pyTruthy s4.year then s4
    else { s4 with year := _extract_year_from_text p0 }

/-- DOI discovery over the first three pages (organize_papers.py 100-107):
first page whose text yields a DOI wins. -/
def doiFromPages : List (List Char) → Option (List Char)
  | pages =>
    match pages.take 3 with
    | [] => none
    | ps => ps.foldl (fun acc p => match acc with
        | some d => some d
        | none => _extract_doi_from_text p) none

/-- Result of `extract_metadata_from_pdf`, instrumented with the number of
registry calls made and seconds slept, to state the no-retry property. -/
structure ExtractResult where
  cand : Candidate
  registryCalls : Nat
  sleepSeconds : Nat
  deriving Repr, DecidableEq

/-- Translation of `PaperMetadata.extract_metadata_from_pdf`
(organize_papers.py 90-157): DOI discovery, at most one registry lookup
that short-circuits the function on success, then embedded metadata and
text heuristics.  `pdfOpen = none` models an exception while reading the
document, caught at the call site. -/
def extract_metadata_from_pdf (pdfSupport requestsSupport downloaded : Bool)
    (pdfOpen : Option PdfContent) (resp : CrResponse) (s : Candidate) : ExtractResult :=
  if !(pdfSupport && downloaded) then ⟨s, 0, 0⟩
  else
    match pdfOpen with
    | none => ⟨s, 0, 0⟩
    | some pdf =>
      match doiFromPages pdf.pages with
      | some _ =>
        if requestsSupport then
          let r := _fetch_metadata_from_crossref requestsSupport resp s
          if r.2.1 then ⟨r.1, 1, r.2.2⟩
          else ⟨textStage pdf (embeddedStage pdf r.1), 1, r.2.2⟩
        else ⟨textStage pdf (embeddedStage pdf s), 0, 0⟩
      | none => ⟨textStage pdf (embeddedStage pdf s), 0, 0⟩

/-! ## Filename fallback (`extract_metadata_from_filename`, organize_papers.py 519-538) -/

/-- Optional opening bracket then four digits, one attempt of
`re.search(r'[(\[]?(\d{4})[)\]]?', stem)` (the closing bracket is optional
and does not affect the capture). -/
def filenameYearAt (cs : List Char) : Option (List Char) :=
  match cs with
  | c :: rest =>
    if c = '(' || c = '[' then
      match take4Digits rest with
      | some (y, _) => some y
      | none => none
    else
      match take4Digits (c :: rest) with
      | some (y, _) => some y
      | none => none
  | [] => none

/-- Leftmost capture of the filename year pattern. -/
def findFilenameYear : List Char → Option (List Char)
  | [] => none
  | c :: cs =>
    match filenameYearAt (c :: cs) with
    | some y => some y
    | none => findFilenameYear cs

/-- One alternative of `^(the|a|an)\s+`: the article (case-insensitive)
followed by at least one whitespace character; returns the remainder after
the whitespace run. -/
def tryArticle (art cs : List Char) : Option (List Char) :=
  match dropLitCI art cs with
  | some r =>
    if (r.takeWhile pyIsSpace).isEmpty then none else some (r.dropWhile pyIsSpace)
  | none => none

/-- Application of `re.sub(r'^(the|a|an)\s+', '', s, flags=re.IGNORECASE)`;
the alternation tries `the`, then `a`, then `an`, each needing trailing
whitespace. -/
def stripLeadingArticle (cs : List Char) : List Char :=
  match tryArticle ("the".toList) cs with
  | some r => r
  | none =>
    match tryArticle ("a".toList) cs with
    | some r => r
    | none =>
      match tryArticle ("an".toList) cs with
      | some r => r
      | none => cs

/-- Translation of `PaperMetadata.extract_metadata_from_filename`: year
from the first (optionally bracketed) four-digit token when the year is
still falsy; author from the first segment of the stem split on
underscore, hyphen or blank, article-stripped, when alphabetic and longer
than two characters and the author is still falsy. -/
def extract_metadata_from_filename (stem : List Char) (s : Candidate) : Candidate :=
  let s1 :=
    match findFilenameYear stem with
    | some y => if !pyTruthy s.year then { s with year := some y } else s
    | none => s
  if !pyTruthy s1.author then
    match splitOnPred (fun c => c = '_' || c = '-' || pyIsSpace c) stem with
    | [] => s1
    | p0 :: _ =>
      let pa := stripLeadingArticle p0
      if 2 < pa.length && pa.all isAlphaChar then { s1 with author := some pa } else s1
  else s1

/-- Per-document processing order of `PaperOrganizer.scan_papers`
(organize_papers.py 582-588): PDF extraction (when the file is available)
followed in every path by the filename fallback. -/
def processPaper (pdfSupport requestsSupport downloaded : Bool)
    (pdfOpen : Option PdfContent) (resp : CrResponse) (stem : List Char) : Candidate :=
  if downloaded then
    extract_metadata_from_filename stem
      (extract_metadata_from_pdf pdfSupport requestsSupport downloaded pdfOpen resp
        initCandidate).cand
  else extract_metadata_from_filename stem initCandidate

example : extract_metadata_from_filename ("Johnson_2015_Entropy".toList) initCandidate
    = { initCandidate with author := some ("Johnson".toList), year := some ("2015".toList) } := by
  decide

/-! ## Helper lemmas -/

theorem dropWhile_idem (p : Char → Bool) (l : List Char) :
    (l.dropWhile p).dropWhile p = l.dropWhile p := by
  induction l with
  | nil => rfl
  | cons c cs ih =>
    by_cases h : p c
    · simp [List.dropWhile_cons, h, ih]
    · simp [List.dropWhile_cons, h]

theorem cleanDoiTail_idem (cs : List Char) : cleanDoiTail (cleanDoiTail cs) = cleanDoiTail cs := by
  unfold cleanDoiTail
  rw [List.reverse_reverse, dropWhile_idem]

theorem getLast?_mem_self {α : Type} (l : List α) (y : α) (h : l.getLast? = some y) : y ∈ l := by
  induction l with
  | nil => simp [List.getLast?] at h
  | cons c cs ih =>
    cases cs with
    | nil => simp [List.getLast?] at h; simp [h]
    | cons d ds =>
      rw [List.getLast?_cons_cons] at h
      exact List.mem_cons_of_mem _ (ih h)

theorem matchBareYearAt_shape (cs g : List Char) (r : List Char)
    (h : matchBareYearAt cs = some (g, r)) : g = ['1', '9'] ∨ g = ['2', '0'] := by
  unfold matchBareYearAt at h
  split at h
  · rename_i c1 c2 c3 c4 rest
    split at h
    · rename_i hcond
      simp only [Bool.and_eq_true, Bool.or_eq_true, decide_eq_true_eq] at hcond
      rcases hcond with ⟨⟨h12, _⟩, _⟩
      split at h
      · simp only [Option.some.injEq, Prod.mk.injEq] at h
        rcases h12 with ⟨ha, hb⟩ | ⟨ha, hb⟩
        · left; rw [← h.1, ha, hb]
        · right; rw [← h.1, ha, hb]
      · split at h
        · simp at h
        · simp only [Option.some.injEq, Prod.mk.injEq] at h
          rcases h12 with ⟨ha, hb⟩ | ⟨ha, hb⟩
          · left; rw [← h.1, ha, hb]
          · right; rw [← h.1, ha, hb]
    · simp at h
  · simp at h

theorem findallYearBareAux_shape (fuel : Nat) :
    ∀ (pw : Bool) (cs : List Char) (y : List Char),
      y ∈ findallYearBareAux fuel pw cs → y = ['1', '9'] ∨ y = ['2', '0'] := by
  induction fuel with
  | zero => intro pw cs y h; simp [findallYearBareAux] at h
  | succ n ih =>
    intro pw cs y h
    match cs with
    | [] => simp [findallYearBareAux] at h
    | c :: rest =>
      unfold findallYearBareAux at h
      split at h
      · rename_i grp rest2 hm
        rcases List.mem_cons.mp h with rfl | hmem
        · refine matchBareYearAt_shape (c :: rest) y rest2 ?_
          split at hm
          · exact absurd hm (by simp)
          · exact hm
        · exact ih true rest2 y hmem
      · exact ih (isWordChar c) rest y h

theorem yearBareCase_eq_none (t : List Char) : yearBareCase t = none := by
  unfold yearBareCase
  cases h : (findallYearBare t).getLast? with
  | none => rfl
  | some y =>
    have hy : y = ['1', '9'] ∨ y = ['2', '0'] :=
      findallYearBareAux_shape t.length false t y (getLast?_mem_self _ y h)
    rcases hy with rfl | rfl <;> simp [natOfDigits]

/-! ## Claim C3: DOI pattern-class priority and trailing-punctuation strip -/

/-- C3: DOI extraction tries the `doi.org/`, labelled `DOI:`, and bare
pattern classes in that priority order, returns the first (leftmost) match
of the first class that matches with trailing `.,;:` stripped, and on text
containing all three forms the `doi.org/` form wins. -/
theorem C3_doi_priority :
    (∀ t d, findDoiOrg t = some d →
        _extract_doi_from_text t = some (cleanDoiTail (pyStrip d))) ∧
    (∀ t d, findDoiOrg t = none → findDoiLabel t = some d →
        _extract_doi_from_text t = some (cleanDoiTail (pyStrip d))) ∧
    (∀ t d, findDoiOrg t = none → findDoiLabel t = none → findDoiBare false t = some d →
        _extract_doi_from_text t = some (cleanDoiTail (pyStrip d))) ∧
    (∀ t, findDoiOrg t = none → findDoiLabel t = none → findDoiBare false t = none →
        _extract_doi_from_text t = none) ∧
    (∀ t d, _extract_doi_from_text t = some d → cleanDoiTail d = d) ∧
    _extract_doi_from_text ("https://doi.org/10.1/x and DOI: 10.1/x and 10.1/x".toList)
      = some ("10.1/x".toList) := by
  refine ⟨?_, ?_, ?_, ?_, ?_, by decide⟩
  · intro t d h
    cases t with
    | nil => simp [findDoiOrg] at h
    | cons c cs => simp [_extract_doi_from_text, h]
  · intro t d h1 h2
    cases t with
    | nil => simp [findDoiLabel] at h2
    | cons c cs => simp [_extract_doi_from_text, h1, h2]
  · intro t d h1 h2 h3
    cases t with
    | nil => simp [findDoiBare] at h3
    | cons c cs => simp [_extract_doi_from_text, h1, h2, h3]
  · intro t h1 h2 h3
    cases t with
    | nil => rfl
    | cons c cs => simp [_extract_doi_from_text, h1, h2, h3]
  · intro t d h
    unfold _extract_doi_from_text at h
    split at h
    · exact absurd h (by simp)
    · split at h
      · rename_i d1 _
        rw [Option.some.injEq] at h
        rw [← h, cleanDoiTail_idem]
      · split at h
        · rename_i d1 _
          rw [Option.some.injEq] at h
          rw [← h, cleanDoiTail_idem]
        · split at h
          · rename_i d1 _
            rw [Option.some.injEq] at h
            rw [← h, cleanDoiTail_idem]
          · exact absurd h (by simp)

/-- Witness for C3 at a concrete labelled-DOI input. -/
theorem C3_doi_priority_witness :
    _extract_doi_from_text ("note DOI: 10.22/yy.z; end".toList)
      = some (cleanDoiTail (pyStrip ("10.22/yy.z;".toList))) :=
  C3_doi_priority.2.1 ("note DOI: 10.22/yy.z; end".toList) ("10.22/yy.z;".toList)
    (by decide) (by decide)

/-! ## Claim C4: year extraction takes the last match (corrected) -/

/-- C4 counterexample: on the spec's own dateline the extractor returns
`"1999"`, not `"2005"` — the whole parenthesised group is a single
`findall` match whose capture is the first four-digit run. -/
theorem C4_year_counterexample :
    _extract_year_from_text ("(Received 3 Jan 1999; published 22 May 2005)".toList)
        = some ("1999".toList) ∧
    _extract_year_from_text ("(Received 3 Jan 1999; published 22 May 2005)".toList)
        ≠ some ("2005".toList) := by
  constructor
  · decide
  · decide

/-- C4 (amended): year extraction searches only the first 2000 characters,
returns the last capture of the parenthesised-year pattern and only when
its numeric value lies in 1900-2100; on the dateline
`"(Received 3 Jan 1999; published 22 May 2005)"` the single match captures
`"1999"`. -/
theorem C4_year_last_match :
    (∀ t, _extract_year_from_text t = _extract_year_from_text (t.take 2000)) ∧
    (∀ t y, _extract_year_from_text t = some y →
        (findallYearParen (t.take 2000)).getLast? = some y ∧
        1900 ≤ natOfDigits y ∧ natOfDigits y ≤ 2100) ∧
    _extract_year_from_text ("(Received 3 Jan 1999; published 22 May 2005)".toList)
        = some ("1999".toList) := by
  refine ⟨?_, ?_, by decide⟩
  · intro t
    unfold _extract_year_from_text
    rw [List.take_take]
    norm_num
  · intro t y h
    unfold _extract_year_from_text at h
    split at h
    · rename_i y' hl
      split at h
      · rename_i hcond
        simp only [Bool.and_eq_true, decide_eq_true_eq] at hcond
        rw [Option.some.injEq] at h
        subst h
        exact ⟨hl, hcond.1, hcond.2⟩
      · rw [yearBareCase_eq_none] at h
        exact absurd h (by simp)
    · rw [yearBareCase_eq_none] at h
      exact absurd h (by simp)

/-- Witness for C4 at the concrete dateline. -/
theorem C4_year_last_match_witness :
    (findallYearParen (("(Received 3 Jan 1999; published 22 May 2005)".toList).take 2000)).getLast?
        = some ("1999".toList) ∧
    1900 ≤ natOfDigits ("1999".toList) ∧ natOfDigits ("1999".toList) ≤ 2100 :=
  C4_year_last_match.2.1 ("(Received 3 Jan 1999; published 22 May 2005)".toList)
    ("1999".toList) (by decide)

/-! ## Claim C10: the bare year pattern can never produce a result -/

/-- C10: the bare `\b(19|20)\d{2}\b` pattern captures only the century
prefix `"19"` or `"20"`, which always fails the 1900-2100 validation, so
every extracted year comes from the parenthesised pattern and a text with
no parenthesised match yields none. -/
theorem C10_bare_year_dead :
    (∀ t y, y ∈ findallYearBare t → y = ['1', '9'] ∨ y = ['2', '0']) ∧
    (∀ t, yearBareCase t = none) ∧
    (∀ t y, _extract_year_from_text t = some y →
        (findallYearParen (t.take 2000)).getLast? = some y) ∧
    (∀ t, findallYearParen (t.take 2000) = [] → _extract_year_from_text t = none) := by
  refine ⟨?_, yearBareCase_eq_none, ?_, ?_⟩
  · intro t y hy
    exact findallYearBareAux_shape t.length false t y hy
  · intro t y h
    unfold _extract_year_from_text at h
    split at h
    · rename_i y' hl
      split at h
      · rw [Option.some.injEq] at h
        subst h
        exact hl
      · rw [yearBareCase_eq_none] at h
        exact absurd h (by simp)
    · rw [yearBareCase_eq_none] at h
      exact absurd h (by simp)
  · intro t h
    unfold _extract_year_from_text
    rw [h]
    exact yearBareCase_eq_none _

/-- Witness for C10: a text whose only year token is a bare four-digit
year yields no extracted year. -/
theorem C10_bare_year_dead_witness :
    _extract_year_from_text ("published in 2005".toList) = none :=
  C10_bare_year_dead.2.2.2 ("published in 2005".toList) (by decide)

/-! ## Claim C5: author-line parser on the superscripted example (corrected) -/

/-- C5 counterexample: on `"Smith, J.1, Doe, A.2, and University of X"` the
parser returns `"Smith, Doe"`, not the claimed `"Smith, J., Doe, A."` —
stripping the trailing digit leaves the two-character tokens `"J."` and
`"A."`, which fail the three-character name check. -/
theorem C5_author_counterexample :
    _parse_author_line ("Smith, J.1, Doe, A.2, and University of X".toList)
        = some ("Smith, Doe".toList) ∧
    _parse_author_line ("Smith, J.1, Doe, A.2, and University of X".toList)
        ≠ some ("Smith, J., Doe, A.".toList) := by
  constructor
  · decide
  · decide

/-- C5 (amended): the parser drops the institution token, but the initials
with attached superscripts are dropped entirely (after the trailing digit
is stripped, `"J."` and `"A."` are shorter than three characters), so the
example yields `"Smith, Doe"`; in general any returned value is the join
of at most the first six accepted tokens with `", "` and is longer than
five characters. -/
theorem C5_author_tokens :
    _parse_author_line ("Smith, J.1, Doe, A.2, and University of X".toList)
        = some ("Smith, Doe".toList) ∧
    (∀ line r, _parse_author_line line = some r →
        r = joinCommaSpace ((acceptedAuthors line).take 6) ∧ 5 < r.length) := by
  refine ⟨by decide, ?_⟩
  intro line r h
  unfold _parse_author_line at h
  split at h
  · exact absurd h (by simp)
  · split at h
    · exact absurd h (by simp)
    · split at h
      · exact absurd h (by simp)
      · split at h
        · exact absurd h (by simp)
        · split at h
          · rename_i hlen
            rw [Option.some.injEq] at h
            subst h
            exact ⟨rfl, hlen⟩
          · exact absurd h (by simp)

/-- Witness for C5 at the concrete superscripted author line. -/
theorem C5_author_tokens_witness :
    ("Smith, Doe".toList)
        = joinCommaSpace ((acceptedAuthors
            ("Smith, J.1, Doe, A.2, and University of X".toList)).take 6) ∧
    5 < ("Smith, Doe".toList).length :=
  C5_author_tokens.2 ("Smith, J.1, Doe, A.2, and University of X".toList)
    ("Smith, Doe".toList) (by decide)

/-! ## Claim C8: arXiv header title recovery -/

/-- C8: when line 0 contains an arXiv identifier, title recovery strips the
identifier, any bracketed category tag and a leading day-month-year token,
collapses whitespace, and returns the remainder whenever its length lies in
20-200; on the spec's example it returns
`"Quantum effects in disordered systems"`. -/
theorem C8_arxiv_title :
    (∀ (lines : List (List Char)) (l0 : List Char) (rest : List (List Char)),
        lines = l0 :: rest →
        containsSub ("arXiv:".toList) l0 = true →
        20 ≤ (arxivTitle l0).length → (arxivTitle l0).length ≤ 200 →
        _extract_title_from_text lines = some (arxivTitle l0)) ∧
    (∀ (lines : List (List Char)) (l0 : List Char) (rest : List (List Char)),
        lines = l0 :: rest →
        containsSub ("arXiv:".toList) l0 = true →
        ¬(20 ≤ (arxivTitle l0).length ∧ (arxivTitle l0).length ≤ 200) →
        _extract_title_from_text lines
          = (match titleMultiScan lines with
             | some t => some t
             | none => titleSingleScan 0 lines)) ∧
    _extract_title_from_text
        [("arXiv:1234.5678 [cond-mat] 9 Apr 2008 Quantum effects in disordered systems".toList),
         ("J. Smith, A. Doe".toList)]
      = some ("Quantum effects in disordered systems".toList) := by
  refine ⟨?_, ?_, by decide⟩
  · intro lines l0 rest hl hc h20 h200
    subst hl
    unfold _extract_title_from_text
    have hcond : (20 ≤ (arxivTitle l0).length && (arxivTitle l0).length ≤ 200) = true := by
      simp [h20, h200]
    simp only [hcond, if_true]
    rw [if_pos hc]
  · intro lines l0 rest hl hc hrange
    subst hl
    unfold _extract_title_from_text
    have hcond : (20 ≤ (arxivTitle l0).length && (arxivTitle l0).length ≤ 200) = false := by
      rcases Decidable.not_and_iff_or_not.mp hrange with h' | h' <;> simp [h']
    simp only [hcond, Bool.false_eq_true, if_false]
    rw [if_pos hc]

/-- Witness for C8 at the concrete arXiv header. -/
theorem C8_arxiv_title_witness :
    _extract_title_from_text
        [("arXiv:1234.5678 [cond-mat] 9 Apr 2008 Quantum effects in disordered systems".toList),
         ("Jones Smith, Adam Doe".toList)]
      = some (arxivTitle
          ("arXiv:1234.5678 [cond-mat] 9 Apr 2008 Quantum effects in disordered systems".toList)) :=
  C8_arxiv_title.1 _
    ("arXiv:1234.5678 [cond-mat] 9 Apr 2008 Quantum effects in disordered systems".toList)
    [("Jones Smith, Adam Doe".toList)] rfl (by decide) (by decide) (by decide)

/-! ## Stage preservation lemmas -/

theorem textStage_keeps_title (pdf : PdfContent) (s : Candidate)
    (h : pyTruthy s.title = true) : (textStage pdf s).title = s.title := by
  rcases hp : pdf.pages with _ | ⟨p0, restPages⟩
  · simp [textStage, hp]
  · simp only [textStage, hp]
    split_ifs <;> simp_all

theorem textStage_keeps_author (pdf : PdfContent) (s : Candidate)
    (h : pyTruthy s.author = true) : (textStage pdf s).author = s.author := by
  rcases hp : pdf.pages with _ | ⟨p0, restPages⟩
  · simp [textStage, hp]
  · simp only [textStage, hp]
    split_ifs <;> simp_all

theorem textStage_keeps_year (pdf : PdfContent) (s : Candidate)
    (h : pyTruthy s.year = true) : (textStage pdf s).year = s.year := by
  rcases hp : pdf.pages with _ | ⟨p0, restPages⟩
  · simp [textStage, hp]
  · simp only [textStage, hp]
    split_ifs <;> simp_all

theorem textStage_keeps_journal (pdf : PdfContent) (s : Candidate) :
    (textStage pdf s).journal = s.journal := by
  rcases hp : pdf.pages with _ | ⟨p0, restPages⟩
  · simp [textStage, hp]
  · simp only [textStage, hp]
    split_ifs <;> simp_all

theorem textStage_keeps_url (pdf : PdfContent) (s : Candidate) :
    (textStage pdf s).url = s.url := by
  rcases hp : pdf.pages with _ | ⟨p0, restPages⟩
  · simp [textStage, hp]
  · simp only [textStage, hp]
    split_ifs <;> simp_all

theorem filename_keeps_year (stem : List Char) (s : Candidate)
    (h : pyTruthy s.year = true) :
    (extract_metadata_from_filename stem s).year = s.year := by
  rcases hy : findFilenameYear stem with _ | y <;>
    rcases hp : splitOnPred (fun c => c = '_' || c = '-' || pyIsSpace c) stem with _ | ⟨p0, ps⟩ <;>
    simp only [extract_metadata_from_filename, hy, hp, h] <;>
    split_ifs <;> simp_all

theorem filename_keeps_author (stem : List Char) (s : Candidate)
    (h : pyTruthy s.author = true) :
    (extract_metadata_from_filename stem s).author = s.author := by
  rcases hy : findFilenameYear stem with _ | y <;>
    rcases hp : splitOnPred (fun c => c = '_' || c = '-' || pyIsSpace c) stem with _ | ⟨p0, ps⟩ <;>
    simp only [extract_metadata_from_filename, hy, hp, h] <;>
    split_ifs <;> simp_all

theorem filename_keeps_rest (stem : List Char) (s : Candidate) :
    (extract_metadata_from_filename stem s).title = s.title ∧
    (extract_metadata_from_filename stem s).journal = s.journal ∧
    (extract_metadata_from_filename stem s).url = s.url := by
  rcases hy : findFilenameYear stem with _ | y <;>
    rcases hp : splitOnPred (fun c => c = '_' || c = '-' || pyIsSpace c) stem with _ | ⟨p0, ps⟩ <;>
    simp only [extract_metadata_from_filename, hy, hp] <;>
    split_ifs <;> simp

theorem crTitleStep_keeps (msg : CrMsg) (s : Candidate) :
    (crTitleStep msg s).author = s.author ∧ (crTitleStep msg s).year = s.year ∧
    (crTitleStep msg s).journal = s.journal ∧ (crTitleStep msg s).url = s.url := by
  unfold crTitleStep
  repeat' split
  all_goals simp

theorem crAuthorStep_keeps (msg : CrMsg) (s : Candidate) :
    (crAuthorStep msg s).title = s.title ∧ (crAuthorStep msg s).year = s.year ∧
    (crAuthorStep msg s).journal = s.journal ∧ (crAuthorStep msg s).url = s.url := by
  unfold crAuthorStep
  repeat' split
  all_goals simp

theorem crYearStep_keeps (msg : CrMsg) (s : Candidate) :
    (crYearStep msg s).title = s.title ∧ (crYearStep msg s).author = s.author ∧
    (crYearStep msg s).journal = s.journal ∧ (crYearStep msg s).url = s.url := by
  unfold crYearStep
  repeat' split
  all_goals simp

theorem crJournalStep_keeps (msg : CrMsg) (s : Candidate) :
    (crJournalStep msg s).title = s.title ∧ (crJournalStep msg s).author = s.author ∧
    (crJournalStep msg s).year = s.year ∧ (crJournalStep msg s).url = s.url := by
  unfold crJournalStep
  repeat' split
  all_goals simp

theorem crUrlStep_keeps (msg : CrMsg) (s : Candidate) :
    (crUrlStep msg s).title = s.title ∧ (crUrlStep msg s).author = s.author ∧
    (crUrlStep msg s).year = s.year ∧ (crUrlStep msg s).journal = s.journal := by
  unfold crUrlStep
  repeat' split
  all_goals simp

theorem fetch_fail_unchanged (rs : Bool) (resp : CrResponse) (s : Candidate)
    (h : (_fetch_metadata_from_crossref rs resp s).2.1 = false) :
    (_fetch_metadata_from_crossref rs resp s).1 = s := by
  cases rs with
  | false => rfl
  | true =>
    cases resp with
    | ok msg =>
      cases msg with
      | none => rfl
      | some m => exact absurd h (by simp [_fetch_metadata_from_crossref])
    | rateLimited => rfl
    | otherStatus => rfl
    | netError => rfl

theorem dropLitCI_mem (pat : List Char) :
    ∀ (cs r : List Char), dropLitCI pat cs = some r → ∀ c ∈ r, c ∈ cs := by
  induction pat with
  | nil =>
    intro cs r h c hc
    rw [dropLitCI, Option.some.injEq] at h
    rw [← h] at hc
    exact hc
  | cons p ps ih =>
    intro cs r h c hc
    cases cs with
    | nil => simp [dropLitCI] at h
    | cons c0 cs' =>
      rw [dropLitCI] at h
      split at h
      · exact List.mem_cons_of_mem _ (ih cs' r h c hc)
      · exact absurd h (by simp)

theorem tryArticle_no_space (art cs : List Char)
    (h : ∀ c ∈ cs, pyIsSpace c = false) : tryArticle art cs = none := by
  unfold tryArticle
  cases hd : dropLitCI art cs with
  | none => rfl
  | some r =>
    cases r with
    | nil => simp
    | cons c r' =>
      have hc : pyIsSpace c = false :=
        h c (dropLitCI_mem art cs (c :: r') hd c (List.mem_cons_self c r'))
      simp [List.takeWhile_cons, hc]

/-! ## Claim C1: stage precedence is never violated -/

/-- C1: no lower-precedence stage overwrites a field set by a
higher-precedence one.  The in-text heuristic stage and the filename stage
only fill Python-falsy fields; a failed registry lookup leaves the
candidate untouched (so the embedded stage always starts from an empty
record), and when the registry lookup fails the pipeline runs exactly the
embedded-then-text fallback on the unchanged candidate. -/
theorem C1_precedence :
    (∀ pdf s, pyTruthy s.title = true → (textStage pdf s).title = s.title) ∧
    (∀ pdf s, pyTruthy s.author = true → (textStage pdf s).author = s.author) ∧
    (∀ pdf s, pyTruthy s.year = true → (textStage pdf s).year = s.year) ∧
    (∀ pdf s, (textStage pdf s).journal = s.journal ∧ (textStage pdf s).url = s.url) ∧
    (∀ stem s, pyTruthy s.year = true →
        (extract_metadata_from_filename stem s).year = s.year) ∧
    (∀ stem s, pyTruthy s.author = true →
        (extract_metadata_from_filename stem s).author = s.author) ∧
    (∀ stem s, (extract_metadata_from_filename stem s).title = s.title ∧
        (extract_metadata_from_filename stem s).journal = s.journal ∧
        (extract_metadata_from_filename stem s).url = s.url) ∧
    (∀ rs resp s, (_fetch_metadata_from_crossref rs resp s).2.1 = false →
        (_fetch_metadata_from_crossref rs resp s).1 = s) ∧
    (∀ pdf resp s d, doiFromPages pdf.pages = some d →
        (_fetch_metadata_from_crossref true resp s).2.1 = false →
        extract_metadata_from_pdf true true true (some pdf) resp s
          = ⟨textStage pdf (embeddedStage pdf s), 1,
              (_fetch_metadata_from_crossref true resp s).2.2⟩) ∧
    (∀ pdf msg s d, doiFromPages pdf.pages = some d →
        extract_metadata_from_pdf true true true (some pdf) (.ok (some msg)) s
          = ⟨applyCrossref msg s, 1, 0⟩) := by
  refine ⟨textStage_keeps_title, textStage_keeps_author, textStage_keeps_year,
    fun pdf s => ⟨textStage_keeps_journal pdf s, textStage_keeps_url pdf s⟩,
    filename_keeps_year, filename_keeps_author, filename_keeps_rest,
    fetch_fail_unchanged, ?_, ?_⟩
  · intro pdf resp s d hd hf
    simp only [extract_metadata_from_pdf, hd, Bool.and_self, Bool.not_true,
      Bool.false_eq_true, if_false, if_true]
    rw [if_neg (by simp [hf]), fetch_fail_unchanged true resp s hf]
  · intro pdf msg s d hd
    simp only [extract_metadata_from_pdf, hd, Bool.and_self, Bool.not_true,
      Bool.false_eq_true, if_false, if_true]
    simp [_fetch_metadata_from_crossref]

/-- Witness for C1: a truthy title survives the text stage. -/
theorem C1_precedence_witness :
    (textStage { pages := [("Some page text 2008".toList)], meta := none }
        { initCandidate with title := some ("Known Title".toList) }).title
      = some ("Known Title".toList) :=
  C1_precedence.1 { pages := [("Some page text 2008".toList)], meta := none }
    { initCandidate with title := some ("Known Title".toList) } (by decide)

/-! ## Claim C2: registry success short-circuits the pipeline -/

/-- C2: when a DOI is found and the resolver call succeeds, every field
present in the registry response is merged and the extraction returns
immediately — the embedded-metadata and in-text stages never run,
whatever the page texts or embedded metadata contain — and fields the
registry left absent stay absent. -/
theorem C2_registry_short_circuit :
    (∀ pdf msg s d, doiFromPages pdf.pages = some d →
        extract_metadata_from_pdf true true true (some pdf) (.ok (some msg)) s
          = ⟨applyCrossref msg s, 1, 0⟩) ∧
    (∀ msg, msg.title = none → (applyCrossref msg initCandidate).title = none) ∧
    (∀ msg, msg.author = none → (applyCrossref msg initCandidate).author = none) ∧
    (∀ msg, msg.publishedPrint = none → msg.publishedOnline = none → msg.issued = none →
        (applyCrossref msg initCandidate).year = none) ∧
    (∀ msg, msg.containerTitle = none → (applyCrossref msg initCandidate).journal = none) ∧
    (∀ msg, msg.urlField = none → msg.link = none →
        (applyCrossref msg initCandidate).url = none) := by
  refine ⟨?_, ?_, ?_, ?_, ?_, ?_⟩
  · intro pdf msg s d hd
    simp only [extract_metadata_from_pdf, hd, Bool.and_self, Bool.not_true,
      Bool.false_eq_true, if_false, if_true]
    simp [_fetch_metadata_from_crossref]
  · intro msg h
    unfold applyCrossref
    rw [(crUrlStep_keeps _ _).1, (crJournalStep_keeps _ _).1, (crYearStep_keeps _ _).1,
      (crAuthorStep_keeps _ _).1]
    simp [crTitleStep, h, initCandidate]
  · intro msg h
    unfold applyCrossref
    rw [(crUrlStep_keeps _ _).2.1, (crJournalStep_keeps _ _).2.1, (crYearStep_keeps _ _).2.1]
    simp only [crAuthorStep, h]
    rw [(crTitleStep_keeps _ _).1]
    simp [initCandidate]
  · intro msg h1 h2 h3
    unfold applyCrossref
    rw [(crUrlStep_keeps _ _).2.2.1, (crJournalStep_keeps _ _).2.2.1]
    simp only [crYearStep, h1, h2, h3]
    rw [(crAuthorStep_keeps _ _).2.1, (crTitleStep_keeps _ _).2.1]
    simp [initCandidate]
  · intro msg h
    unfold applyCrossref
    rw [(crUrlStep_keeps _ _).2.2.2]
    simp only [crJournalStep, h]
    rw [(crYearStep_keeps _ _).2.2.1, (crAuthorStep_keeps _ _).2.2.1,
      (crTitleStep_keeps _ _).2.2.1]
    simp [initCandidate]
  · intro msg h1 h2
    unfold applyCrossref
    simp only [crUrlStep, h1, h2]
    rw [(crJournalStep_keeps _ _).2.2.2, (crYearStep_keeps _ _).2.2.2,
      (crAuthorStep_keeps _ _).2.2.2, (crTitleStep_keeps _ _).2.2.2]
    simp [initCandidate]

/-- Witness for C2: a title-only registry response is terminal success and
leaves every other field absent. -/
theorem C2_registry_short_circuit_witness :
    extract_metadata_from_pdf true true true
        (some { pages := [("see doi.org/10.1/x".toList)],
                meta := some { title := some ("Embedded".toList),
                               author := some ("Someone".toList),
                               creationDate := ("D:20200101".toList) } })
        (.ok (some { title := some (.list [("Only Title".toList)]), author := none,
                     publishedPrint := none, publishedOnline := none, issued := none,
                     containerTitle := none, urlField := none, link := none }))
        initCandidate
      = ⟨applyCrossref
            { title := some (.list [("Only Title".toList)]), author := none,
              publishedPrint := none, publishedOnline := none, issued := none,
              containerTitle := none, urlField := none, link := none }
            initCandidate, 1, 0⟩ :=
  C2_registry_short_circuit.1 _ _ initCandidate ("10.1/x".toList) (by decide)

/-! ## Claim C6: HTTP 429 sleeps one second, no retry, heuristic fallback -/

/-- C6: a rate-limited resolver response sleeps exactly one second, reports
failure without mutating the candidate, and the pipeline performs its
single registry call and then falls through to the embedded/text heuristic
fallback. -/
theorem C6_rate_limit :
    (∀ s, _fetch_metadata_from_crossref true .rateLimited s = (s, false, 1)) ∧
    (∀ pdf s d, doiFromPages pdf.pages = some d →
        extract_metadata_from_pdf true true true (some pdf) .rateLimited s
          = ⟨textStage pdf (embeddedStage pdf s), 1, 1⟩) := by
  constructor
  · intro s
    rfl
  · intro pdf s d hd
    simp only [extract_metadata_from_pdf, hd, Bool.and_self, Bool.not_true,
      Bool.false_eq_true, if_false, if_true]
    simp [_fetch_metadata_from_crossref]

/-- Witness for C6 at a concrete rate-limited document. -/
theorem C6_rate_limit_witness :
    extract_metadata_from_pdf true true true
        (some { pages := [("see doi.org/10.1/x".toList)], meta := none })
        .rateLimited initCandidate
      = ⟨textStage { pages := [("see doi.org/10.1/x".toList)], meta := none }
            (embeddedStage { pages := [("see doi.org/10.1/x".toList)], meta := none }
              initCandidate), 1, 1⟩ :=
  C6_rate_limit.2 _ initCandidate ("10.1/x".toList) (by decide)

/-! ## Claim C7: failures degrade silently, nothing escapes the engine -/

/-- C7: a network exception, a non-200/429 status, or a 200 response
without a `message` object all report Boolean failure with the candidate
untouched; a document whose decoding raises is caught and leaves the
candidate unchanged; and a transport error steers the pipeline exactly
like a bad status — every failure degrades to fewer fields, never to an
abort. -/
theorem C7_failure_silent :
    (∀ rs s, _fetch_metadata_from_crossref rs .netError s = (s, false, 0)) ∧
    (∀ rs s, _fetch_metadata_from_crossref rs .otherStatus s = (s, false, 0)) ∧
    (∀ rs s, _fetch_metadata_from_crossref rs (.ok none) s = (s, false, 0)) ∧
    (∀ ps rs dl resp s, extract_metadata_from_pdf ps rs dl none resp s = ⟨s, 0, 0⟩) ∧
    (∀ ps rs dl pdfo stem, processPaper ps rs dl pdfo .netError stem
        = processPaper ps rs dl pdfo .otherStatus stem) := by
  refine ⟨?_, ?_, ?_, ?_, ?_⟩
  · intro rs s; cases rs <;> rfl
  · intro rs s; cases rs <;> rfl
  · intro rs s; cases rs <;> rfl
  · intro ps rs dl resp s; cases ps <;> cases dl <;> rfl
  · intro ps rs dl pdfo stem
    cases dl with
    | false => rfl
    | true =>
      cases ps with
      | false => rfl
      | true =>
        cases pdfo with
        | none => rfl
        | some pdf =>
          cases hd : doiFromPages pdf.pages with
          | none => simp [processPaper, extract_metadata_from_pdf, hd]
          | some d =>
            cases rs with
            | false => simp [processPaper, extract_metadata_from_pdf, hd]
            | true =>
              simp [processPaper, extract_metadata_from_pdf, hd,
                _fetch_metadata_from_crossref]

/-- Witness for C7: failure paths at concrete inputs. -/
theorem C7_failure_silent_witness :
    _fetch_metadata_from_crossref true .netError initCandidate = (initCandidate, false, 0) ∧
    extract_metadata_from_pdf true true true none .netError initCandidate
      = ⟨initCandidate, 0, 0⟩ :=
  ⟨C7_failure_silent.1 true initCandidate,
   C7_failure_silent.2.2.2.1 true true true .netError initCandidate⟩

/-! ## Claim C9: filename fallback fills only absent fields -/

/-- C9: the filename stage fills the year from the first (optionally
bracketed) four-digit token only when the year is absent, keeps truthy
fields, strips a leading article only when followed by whitespace (a no-op
on whitespace-free segments), and the document with no DOI, empty page
text and stem `"Johnson_2015_Entropy"` ends with author `"Johnson"` and
year `"2015"`. -/
theorem C9_filename_fallback :
    (∀ stem s y, pyTruthy s.year = false → findFilenameYear stem = some y →
        (extract_metadata_from_filename stem s).year = some y) ∧
    (∀ stem s, pyTruthy s.year = true →
        (extract_metadata_from_filename stem s).year = s.year) ∧
    (∀ stem s, pyTruthy s.author = true →
        (extract_metadata_from_filename stem s).author = s.author) ∧
    (∀ p, (∀ c ∈ p, pyIsSpace c = false) → stripLeadingArticle p = p) ∧
    processPaper true true true (some { pages := [[]], meta := none }) .netError
        ("Johnson_2015_Entropy".toList)
      = { initCandidate with author := some ("Johnson".toList),
                             year := some ("2015".toList) } := by
  refine ⟨?_, filename_keeps_year, filename_keeps_author, ?_, by decide⟩
  · intro stem s y h hy
    rcases hp : splitOnPred (fun c => c = '_' || c = '-' || pyIsSpace c) stem with _ | ⟨p0, ps⟩ <;>
      simp only [extract_metadata_from_filename, hy, hp, h] <;>
      split_ifs <;> simp_all
  · intro p hp
    unfold stripLeadingArticle
    rw [tryArticle_no_space _ p hp, tryArticle_no_space _ p hp, tryArticle_no_space _ p hp]

/-- Witness for C9 at the concrete filename stem. -/
theorem C9_filename_fallback_witness :
    (extract_metadata_from_filename ("Johnson_2015_Entropy".toList) initCandidate).year
      = some ("2015".toList) :=
  C9_filename_fallback.1 ("Johnson_2015_Entropy".toList) initCandidate ("2015".toList)
    (by decide) (by decide)

end OrganizePapers
